import Mathlib

/-!
Shallow embedding of the Smart Attendance System persistence layer
(src/database_manager.py, class DatabaseManager).

The relational store is modelled as four lists of rows plus the
autoincrement counters of the two attendance tables.  Dates and
timestamps are abstract `Nat` values supplied explicitly where the
Python code reads the system clock (`date.today()` / `datetime.now()`).
Every public operation of the class is modelled as a pure function;
the `try/except` boundary of each operation is made explicit by a
`..._body` function returning `Except DBError` (the fallible body of
the `try` block) and a public wrapper that converts any error into the
operation's non-throwing default result, leaving the store unchanged
(an uncommitted sqlite transaction is rolled back when the connection
closes).  Python truthiness tests on optional string arguments
(`if course_id:`, `if student_id:`) are modelled faithfully: `none`
and `some ""` are both falsy.
-/

namespace SmartAttendance

/-- A row of the `students` table (student_id PK, name, email, phone,
department, created_at). -/
structure StudentRow where
  student_id : String
  name : String
  email : String
  phone : String
  department : String
  created_at : Nat
deriving DecidableEq, Repr

/-- A row of the `courses` table (course_id PK, course_name, instructor,
schedule, created_at). -/
structure CourseRow where
  course_id : String
  course_name : String
  instructor : String
  schedule : String
  created_at : Nat
deriving DecidableEq, Repr

/-- A row of the `attendance` table (id PK autoincrement, student_id, date,
time_in, time_out, verification_method, course_id, created_at,
UNIQUE(student_id, date)). -/
structure AttendanceRow where
  id : Nat
  student_id : String
  date : Nat
  time_in : Nat
  time_out : Option Nat
  verification_method : String
  course_id : Option String
  created_at : Nat
deriving DecidableEq, Repr

/-- A row of the `course_attendance` table (id PK autoincrement, student_id,
course_id, date, time_in, time_out, verification_method, created_at,
UNIQUE(student_id, course_id, date)). -/
structure CourseAttendanceRow where
  id : Nat
  student_id : String
  course_id : String
  date : Nat
  time_in : Nat
  time_out : Option Nat
  verification_method : String
  created_at : Nat
deriving DecidableEq, Repr

/-- The whole relational store (the sqlite database file).  Lists hold the
rows in rowid order (insertion order), which is the order a SELECT without
ORDER BY scans them in. -/
structure Store where
  students : List StudentRow
  courses : List CourseRow
  attendance : List AttendanceRow
  course_attendance : List CourseAttendanceRow
  next_attendance_id : Nat
  next_course_attendance_id : Nat
deriving DecidableEq, Repr

/-- The store right after `init_database` on a fresh file: four empty
tables (sqlite autoincrement starts at 1). -/
def Store.empty : Store := ⟨[], [], [], [], 1, 1⟩

/-- The faults that can occur inside an operation body: a unique/primary
key violation (sqlite3.IntegrityError) or a file-system failure during
backup/restore (shutil/OSError). -/
inductive DBError where
  | integrityError
  | ioError
deriving DecidableEq, Repr

/-- Python truthiness of an optional string argument: `None` and the empty
string are falsy, every other string is truthy. -/
def truthy : Option String → Bool
  | none => false
  | some v => !(v == "")

/-! ### add_student / get_student / get_all_students -/

/-- Body of `add_student`: INSERT INTO students; raises IntegrityError when
the primary key `student_id` already exists. -/
def add_student_body (s : Store) (student_id name email phone department : String)
    (now : Nat) : Except DBError (Bool × Store) :=
  if s.students.any (fun st => st.student_id == student_id) then
    Except.error DBError.integrityError
  else
    Except.ok (true, { s with
      students := s.students ++ [⟨student_id, name, email, phone, department, now⟩] })

/-- Operation `add_student(student_id, name, email, phone, department)`: returns True
on success, False on duplicate key or any other fault (store unchanged). -/
def add_student (s : Store) (student_id name email phone department : String)
    (now : Nat) : Bool × Store :=
  match add_student_body s student_id name email phone department now with
  | Except.ok r => r
  | Except.error _ => (false, s)

/-- Body of `get_student`: SELECT ... WHERE student_id = ? with fetchone
(first matching row in rowid order). -/
def get_student_body (s : Store) (student_id : String) :
    Except DBError (Option StudentRow) :=
  Except.ok (s.students.find? (fun st => st.student_id == student_id))

/-- Operation `get_student(student_id)`: the student row, or None when absent or on
fault. -/
def get_student (s : Store) (student_id : String) : Option StudentRow :=
  match get_student_body s student_id with
  | Except.ok r => r
  | Except.error _ => none

/-- Body of `get_all_students`: SELECT ... ORDER BY name. -/
def get_all_students_body (s : Store) : Except DBError (List StudentRow) :=
  Except.ok (s.students.mergeSort (fun a b => a.name ≤ b.name))

/-- Operation `get_all_students()`: all student rows ordered by name, or [] on
fault. -/
def get_all_students (s : Store) : List StudentRow :=
  match get_all_students_body s with
  | Except.ok r => r
  | Except.error _ => []

/-! ### record_attendance -/

/-- The WHERE clause of the existence check in `record_attendance`:
`student_id = ? AND date = ?`. -/
def attMatches (student_id : String) (today : Nat) (a : AttendanceRow) : Bool :=
  a.student_id == student_id && a.date == today

/-- The WHERE clause on `course_attendance`:
`student_id = ? AND course_id = ? AND date = ?`. -/
def caMatches (student_id course_id : String) (today : Nat)
    (r : CourseAttendanceRow) : Bool :=
  r.student_id == student_id && r.course_id == course_id && r.date == today

/-- Body of `record_attendance`.  First a SELECT for an existing attendance
row for (student_id, today); if one exists, UPDATE its time_out (and, when
`course_id` is truthy, UPDATE time_out of the matching course_attendance
rows) and return False; otherwise INSERT a new attendance row (and, when
`course_id` is truthy, a new course_attendance row) and return True.  The
course_attendance INSERT raises IntegrityError when it would violate
UNIQUE(student_id, course_id, date). -/
def record_attendance_body (s : Store) (student_id verification_method : String)
    (course_id : Option String) (today now : Nat) : Except DBError (Bool × Store) :=
  match s.attendance.find? (attMatches student_id today) with
  | some existing =>
      let att := s.attendance.map (fun a =>
        if a.id == existing.id then { a with time_out := some now } else a)
      let ca :=
        if truthy course_id then
          s.course_attendance.map (fun r =>
            if caMatches student_id (course_id.getD "") today r then
              { r with time_out := some now } else r)
        else s.course_attendance
      Except.ok (false, { s with attendance := att, course_attendance := ca })
  | none =>
      let newRow : AttendanceRow :=
        ⟨s.next_attendance_id, student_id, today, now, none, verification_method,
          course_id, now⟩
      if truthy course_id then
        if s.course_attendance.any (caMatches student_id (course_id.getD "") today) then
          Except.error DBError.integrityError
        else
          Except.ok (true, { s with
            attendance := s.attendance ++ [newRow],
            course_attendance := s.course_attendance ++
              [⟨s.next_course_attendance_id, student_id, course_id.getD "", today,
                now, none, verification_method, now⟩],
            next_attendance_id := s.next_attendance_id + 1,
            next_course_attendance_id := s.next_course_attendance_id + 1 })
      else
        Except.ok (true, { s with
          attendance := s.attendance ++ [newRow],
          next_attendance_id := s.next_attendance_id + 1 })

/-- Operation `record_attendance(student_id, verification_method, course_id)`:
True when a new attendance row was created for the day, False when the
call toggled an existing row (or on fault, store unchanged). -/
def record_attendance (s : Store) (student_id verification_method : String)
    (course_id : Option String) (today now : Nat) : Bool × Store :=
  match record_attendance_body s student_id verification_method course_id today now with
  | Except.ok r => r
  | Except.error _ => (false, s)

/-! ### get_attendance_report -/

/-- One result row of `get_attendance_report`:
(a.time_in, a.student_id, s.name, a.date, a.verification_method,
c.course_name), course_name NULL when the LEFT JOIN finds no course. -/
structure ReportRow where
  time_in : Nat
  student_id : String
  name : String
  date : Nat
  verification_method : String
  course_name : Option String
deriving DecidableEq, Repr

/-- The conjunctive WHERE clause assembled by `get_attendance_report`:
each filter contributes a conjunct only when the Python argument is truthy
(dates are date objects, truthy whenever present; string filters are falsy
when None or empty). -/
def reportFilter (start_date end_date : Option Nat)
    (student_id course_id : Option String) (a : AttendanceRow) : Bool :=
  (match start_date with | some d => d ≤ a.date | none => true) &&
  (match end_date with | some d => a.date ≤ d | none => true) &&
  (if truthy student_id then a.student_id == student_id.getD "" else true) &&
  (if truthy course_id then a.course_id == some (course_id.getD "") else true)

/-- The LEFT JOIN of one attendance row against `courses`: one output per
matching course, or a single NULL course_name when none matches. -/
def courseNames (s : Store) (a : AttendanceRow) : List (Option String) :=
  let ms := s.courses.filter (fun c => a.course_id == some c.course_id)
  if ms.isEmpty then [none] else ms.map (fun c => some c.course_name)

/-- The FROM/JOIN/WHERE part of the report query, before ORDER BY:
attendance INNER JOIN students LEFT JOIN courses, filtered. -/
def reportRows (s : Store) (start_date end_date : Option Nat)
    (student_id course_id : Option String) : List ReportRow :=
  s.attendance.flatMap (fun a =>
    if reportFilter start_date end_date student_id course_id a then
      s.students.flatMap (fun st =>
        if st.student_id == a.student_id then
          (courseNames s a).map (fun cn =>
            ⟨a.time_in, a.student_id, st.name, a.date, a.verification_method, cn⟩)
        else [])
    else [])

/-- The ORDER BY time_in DESC comparator. -/
def reportLe (r1 r2 : ReportRow) : Bool := r2.time_in ≤ r1.time_in

/-- Body of `get_attendance_report`: the joined, filtered rows ordered by
time_in DESC. -/
def get_attendance_report_body (s : Store) (start_date end_date : Option Nat)
    (student_id course_id : Option String) : Except DBError (List ReportRow) :=
  Except.ok ((reportRows s start_date end_date student_id course_id).mergeSort reportLe)

/-- Operation `get_attendance_report(start_date, end_date, student_id, course_id)`:
the report rows, or [] on fault. -/
def get_attendance_report (s : Store) (start_date end_date : Option Nat)
    (student_id course_id : Option String) : List ReportRow :=
  match get_attendance_report_body s start_date end_date student_id course_id with
  | Except.ok r => r
  | Except.error _ => []

/-! ### add_course / get_all_courses -/

/-- Body of `add_course`: INSERT INTO courses; raises IntegrityError when
the primary key `course_id` already exists. -/
def add_course_body (s : Store) (course_id course_name instructor schedule : String)
    (now : Nat) : Except DBError (Bool × Store) :=
  if s.courses.any (fun c => c.course_id == course_id) then
    Except.error DBError.integrityError
  else
    Except.ok (true, { s with
      courses := s.courses ++ [⟨course_id, course_name, instructor, schedule, now⟩] })

/-- Operation `add_course(course_id, course_name, instructor, schedule)`. -/
def add_course (s : Store) (course_id course_name instructor schedule : String)
    (now : Nat) : Bool × Store :=
  match add_course_body s course_id course_name instructor schedule now with
  | Except.ok r => r
  | Except.error _ => (false, s)

/-- Body of `get_all_courses`: SELECT ... ORDER BY course_name. -/
def get_all_courses_body (s : Store) : Except DBError (List CourseRow) :=
  Except.ok (s.courses.mergeSort (fun a b => a.course_name ≤ b.course_name))

/-- Operation `get_all_courses()`: all course rows ordered by name, or [] on fault. -/
def get_all_courses (s : Store) : List CourseRow :=
  match get_all_courses_body s with
  | Except.ok r => r
  | Except.error _ => []

/-! ### delete_student / delete_course -/

/-- Body of `delete_student`: DELETE FROM attendance, course_attendance and
students for the given student_id, committed together. -/
def delete_student_body (s : Store) (student_id : String) :
    Except DBError (Bool × Store) :=
  Except.ok (true, { s with
    attendance := s.attendance.filter (fun a => !(a.student_id == student_id)),
    course_attendance :=
      s.course_attendance.filter (fun r => !(r.student_id == student_id)),
    students := s.students.filter (fun st => !(st.student_id == student_id)) })

/-- Operation `delete_student(student_id)`. -/
def delete_student (s : Store) (student_id : String) : Bool × Store :=
  match delete_student_body s student_id with
  | Except.ok r => r
  | Except.error _ => (false, s)

/-- Body of `delete_course`: DELETE FROM course_attendance for the course,
UPDATE attendance SET course_id = NULL WHERE course_id = ?, then DELETE the
course row, committed together. -/
def delete_course_body (s : Store) (course_id : String) :
    Except DBError (Bool × Store) :=
  Except.ok (true, { s with
    course_attendance :=
      s.course_attendance.filter (fun r => !(r.course_id == course_id)),
    attendance := s.attendance.map (fun a =>
      if a.course_id == some course_id then { a with course_id := none } else a),
    courses := s.courses.filter (fun c => !(c.course_id == course_id)) })

/-- Operation `delete_course(course_id)`. -/
def delete_course (s : Store) (course_id : String) : Bool × Store :=
  match delete_course_body s course_id with
  | Except.ok r => r
  | Except.error _ => (false, s)

/-! ### get_student_statistics -/

/-- The result dict of `get_student_statistics`: total_attendance,
recent_attendance (30-day window) and method_stats (method → count,
as produced by GROUP BY verification_method). -/
structure Stats where
  total_attendance : Nat
  recent_attendance : Nat
  method_stats : List (String × Nat)
deriving DecidableEq, Repr

/-- Body of `get_student_statistics`: three independent aggregate queries
over the attendance rows of one student.  The 30-day window condition
`date >= today - 30` is written without integer subtraction as
`today ≤ date + 30`, which is equivalent over actual dates. -/
def get_student_statistics_body (s : Store) (student_id : String) (today : Nat) :
    Except DBError Stats :=
  let rows := s.attendance.filter (fun a => a.student_id == student_id)
  let methods := (rows.map (fun a => a.verification_method)).dedup
  Except.ok
    { total_attendance := rows.length
    , recent_attendance := (rows.filter (fun a => today ≤ a.date + 30)).length
    , method_stats := methods.map (fun m =>
        (m, (rows.filter (fun a => a.verification_method == m)).length)) }

/-- Operation `get_student_statistics(student_id)`: `some` the statistics record, or
`none` (the empty dict) on fault. -/
def get_student_statistics (s : Store) (student_id : String) (today : Nat) :
    Option Stats :=
  match get_student_statistics_body s student_id today with
  | Except.ok r => some r
  | Except.error _ => none

/-! ### backup_database / restore_database -/

/-- The file system seen by backup/restore: an association list from path
to database-file content. -/
abbrev FS := List (String × Store)

/-- Read the file at a path, None when absent. -/
def FS.read (fs : FS) (p : String) : Option Store :=
  (fs.find? (fun e => e.1 == p)).map (fun e => e.2)

/-- Write (create or overwrite) the file at a path. -/
def FS.write (fs : FS) (p : String) (v : Store) : FS :=
  (p, v) :: fs.filter (fun e => !(e.1 == p))

/-- Body of `backup_database`: shutil.copy2(db_path, backup_path); raises
when the source file cannot be read. -/
def backup_database_body (fs : FS) (db_path backup_path : String) :
    Except DBError (Bool × FS) :=
  match FS.read fs db_path with
  | some content => Except.ok (true, FS.write fs backup_path content)
  | none => Except.error DBError.ioError

/-- Operation `backup_database(backup_path)`. -/
def backup_database (fs : FS) (db_path backup_path : String) : Bool × FS :=
  match backup_database_body fs db_path backup_path with
  | Except.ok r => r
  | Except.error _ => (false, fs)

/-- Body of `restore_database`: shutil.copy2(backup_path, db_path); raises
when the backup file cannot be read. -/
def restore_database_body (fs : FS) (db_path backup_path : String) :
    Except DBError (Bool × FS) :=
  match FS.read fs backup_path with
  | some content => Except.ok (true, FS.write fs db_path content)
  | none => Except.error DBError.ioError

/-- Operation `restore_database(backup_path)`. -/
def restore_database (fs : FS) (db_path backup_path : String) : Bool × FS :=
  match restore_database_body fs db_path backup_path with
  | Except.ok r => r
  | Except.error _ => (false, fs)

/-! ### Reachability: states producible by the mutating store operations -/

/-- One mutating store operation applied to a store.  `backup_database`
does not change the store file; `restore_database` replaces it wholesale
with a previously backed-up store, so in-place row mutation is fully
described by these five operations. -/
inductive Step : Store → Store → Prop where
  | addStudent (s : Store) (sid n e p dep : String) (t : Nat) :
      Step s (add_student s sid n e p dep t).2
  | addCourse (s : Store) (cid n i sch : String) (t : Nat) :
      Step s (add_course s cid n i sch t).2
  | recordAttendance (s : Store) (sid vm : String) (cid : Option String)
      (today now : Nat) :
      Step s (record_attendance s sid vm cid today now).2
  | deleteStudent (s : Store) (sid : String) :
      Step s (delete_student s sid).2
  | deleteCourse (s : Store) (cid : String) :
      Step s (delete_course s cid).2

/-- Stores reachable from a fresh database by mutating operations. -/
inductive Reachable : Store → Prop where
  | init : Reachable Store.empty
  | step {s s' : Store} : Reachable s → Step s s' → Reachable s'

/-! ### Helper lemmas -/

/-- Mapping a function that fixes every element of a list is the
identity. -/
theorem map_eq_self_of_fixed {α : Type} {l : List α} {f : α → α}
    (h : ∀ x ∈ l, f x = x) : l.map f = l := by
  induction l with
  | nil => rfl
  | cons a t ih =>
      simp only [List.map_cons, List.cons.injEq]
      exact ⟨h a (List.mem_cons_self a t), ih (fun x hx => h x (List.mem_cons_of_mem a hx))⟩

/-- In a list whose elements have pairwise distinct `id` fields, two
members with the same `id` are the same row. -/
theorem att_eq_of_same_id {l : List AttendanceRow}
    (h : l.Pairwise (fun a b => a.id ≠ b.id)) :
    ∀ r ∈ l, ∀ r2 ∈ l, r.id = r2.id → r = r2 := by
  induction l with
  | nil => intro r hr; cases hr
  | cons a t ih =>
      intro r hr r2 hr2 hid
      rcases List.pairwise_cons.mp h with ⟨ha, ht⟩
      rcases List.mem_cons.mp hr with h1 | h1
      · rcases List.mem_cons.mp hr2 with h2 | h2
        · rw [h1, h2]
        · subst h1
          exact absurd hid (ha r2 h2)
      · rcases List.mem_cons.mp hr2 with h2 | h2
        · subst h2
          exact absurd hid.symm (ha r h1)
        · exact ih ht r h1 r2 h2 hid

/-- Looking up a key of a nodup key list in the graph of a function. -/
theorem lookup_map_graph (f : String → Nat) :
    ∀ (ms : List String), ms.Nodup → ∀ m ∈ ms,
      (ms.map (fun x => (x, f x))).lookup m = some (f m) := by
  intro ms
  induction ms with
  | nil => intro _ m hm; cases hm
  | cons a t ih =>
      intro hnd m hm
      rcases List.mem_cons.mp hm with rfl | hm
      · simp [List.lookup_cons]
      · have hne : ¬(m == a) = true := by
          intro hba
          exact (List.nodup_cons.mp hnd).1 (beq_iff_eq.mp hba ▸ hm)
        simp only [List.map_cons, List.lookup_cons]
        rw [Bool.eq_false_iff.mpr hne]
        exact ih (List.nodup_cons.mp hnd).2 m hm

/-- Branch lemma: with no attendance row for the day and no course given,
`record_attendance` appends one new row and returns True. -/
theorem record_attendance_insert_eq (s : Store) (sid vm : String) (d t : Nat)
    (hf : s.attendance.find? (attMatches sid d) = none) :
    record_attendance s sid vm none d t =
      (true, { s with
        attendance := s.attendance ++
          ([⟨s.next_attendance_id, sid, d, t, none, vm, none, t⟩] : List AttendanceRow),
        next_attendance_id := s.next_attendance_id + 1 }) := by
  simp [record_attendance, record_attendance_body, hf, truthy]

/-- Branch lemma: with an attendance row found for the day and no course
given, `record_attendance` sets time_out on the row with the found id and
returns False. -/
theorem record_attendance_toggle_eq (s : Store) (sid vm : String) (d t : Nat)
    (a0 : AttendanceRow)
    (hf : s.attendance.find? (attMatches sid d) = some a0) :
    record_attendance s sid vm none d t =
      (false, { s with
        attendance := s.attendance.map (fun a =>
          if a.id == a0.id then { a with time_out := some t } else a) }) := by
  simp [record_attendance, record_attendance_body, hf, truthy]

/-! ### C6 -/

/-- C6: an `add_student` call with a student_id not yet present returns True
and inserts the row with the given fields; any `add_student` call on a store
already containing that student_id returns False — the duplicate key is
converted to a boolean, not raised — and returns the store unchanged, so the
originally inserted row (name, email, phone, department) is untouched. -/
theorem add_student_duplicate_key (s : Store) (sid n e p dep : String) (t : Nat)
    (h : ∀ st ∈ s.students, st.student_id ≠ sid) :
    (add_student s sid n e p dep t).1 = true ∧
    (⟨sid, n, e, p, dep, t⟩ : StudentRow) ∈ (add_student s sid n e p dep t).2.students ∧
    ∀ s2 : Store, (∃ st ∈ s2.students, st.student_id = sid) →
      ∀ n2 e2 p2 dep2 t2, add_student s2 sid n2 e2 p2 dep2 t2 = (false, s2) := by
  have hany : s.students.any (fun st => st.student_id == sid) = false := by
    rw [List.any_eq_false]
    intro st hst
    simpa using h st hst
  refine ⟨?_, ?_, ?_⟩
  · simp [add_student, add_student_body, hany]
  · simp [add_student, add_student_body, hany]
  · rintro s2 ⟨st, hst, hid⟩ n2 e2 p2 dep2 t2
    have hany2 : s2.students.any (fun st => st.student_id == sid) = true :=
      List.any_eq_true.mpr ⟨st, hst, by simp [hid]⟩
    simp [add_student, add_student_body, hany2]

/-- Witness for C6: add a fresh student to an empty store. -/
theorem add_student_duplicate_key_witness :
    (add_student Store.empty "S001" "John Doe" "j@x" "1" "CS" 3).1 = true ∧
    (⟨"S001", "John Doe", "j@x", "1", "CS", 3⟩ : StudentRow) ∈
      (add_student Store.empty "S001" "John Doe" "j@x" "1" "CS" 3).2.students := by
  have h := add_student_duplicate_key Store.empty "S001" "John Doe" "j@x" "1" "CS" 3
    (by intro st hst; cases hst)
  exact ⟨h.1, h.2.1⟩

/-! ### C7 -/

/-- C7: `delete_student` reports success and the returned store — produced
by the single committed transaction deleting from attendance,
course_attendance and students together — has no row of any of the three
tables carrying the student_id, and `get_student` then returns None. -/
theorem delete_student_removes_all (s : Store) (sid : String) :
    (delete_student s sid).1 = true ∧
    (∀ st ∈ (delete_student s sid).2.students, st.student_id ≠ sid) ∧
    (∀ a ∈ (delete_student s sid).2.attendance, a.student_id ≠ sid) ∧
    (∀ r ∈ (delete_student s sid).2.course_attendance, r.student_id ≠ sid) ∧
    get_student (delete_student s sid).2 sid = none := by
  have hs2 : (delete_student s sid).2 = { s with
      attendance := s.attendance.filter (fun a => !(a.student_id == sid)),
      course_attendance := s.course_attendance.filter (fun r => !(r.student_id == sid)),
      students := s.students.filter (fun st => !(st.student_id == sid)) } := rfl
  refine ⟨rfl, ?_, ?_, ?_, ?_⟩
  · rw [hs2]
    intro st hst
    simpa using (List.mem_filter.mp hst).2
  · rw [hs2]
    intro a ha
    simpa using (List.mem_filter.mp ha).2
  · rw [hs2]
    intro r hr
    simpa using (List.mem_filter.mp hr).2
  · simp only [get_student, get_student_body, hs2]
    rw [List.find?_eq_none]
    intro st hst
    simpa using (List.mem_filter.mp hst).2

/-- Witness for C7: delete a concrete student with one attendance row and
one course_attendance row, then look the student up. -/
theorem delete_student_removes_all_witness :
    get_student (delete_student
      { Store.empty with
        students := [⟨"S1", "John", "", "", "", 0⟩],
        attendance := [⟨1, "S1", 5, 50, none, "id_pass", none, 50⟩],
        course_attendance := [⟨1, "S1", "C1", 5, 50, none, "id_pass", 50⟩],
        next_attendance_id := 2,
        next_course_attendance_id := 2 } "S1").2 "S1" = none :=
  (delete_student_removes_all
    { Store.empty with
      students := [⟨"S1", "John", "", "", "", 0⟩],
      attendance := [⟨1, "S1", 5, 50, none, "id_pass", none, 50⟩],
      course_attendance := [⟨1, "S1", "C1", 5, 50, none, "id_pass", 50⟩],
      next_attendance_id := 2,
      next_course_attendance_id := 2 } "S1").2.2.2.2

/-! ### C8 -/

/-- C8: `delete_course` removes every course_attendance row of the course
(keeping the others), deletes the courses row (keeping the others), and on
the attendance table deletes nothing: every row that referenced the course
survives with only its course_id set to null — all other fields untouched —
and every row not referencing the course survives unchanged. -/
theorem delete_course_effects (s : Store) (cid : String) :
    (delete_course s cid).1 = true ∧
    (∀ r ∈ (delete_course s cid).2.course_attendance, r.course_id ≠ cid) ∧
    (∀ r ∈ s.course_attendance, r.course_id ≠ cid →
      r ∈ (delete_course s cid).2.course_attendance) ∧
    (∀ c ∈ (delete_course s cid).2.courses, c.course_id ≠ cid) ∧
    (∀ c ∈ s.courses, c.course_id ≠ cid → c ∈ (delete_course s cid).2.courses) ∧
    (delete_course s cid).2.attendance.length = s.attendance.length ∧
    (∀ a ∈ s.attendance, a.course_id = some cid →
      ({ a with course_id := none } : AttendanceRow) ∈ (delete_course s cid).2.attendance) ∧
    (∀ a ∈ s.attendance, a.course_id ≠ some cid → a ∈ (delete_course s cid).2.attendance) := by
  have hs2 : (delete_course s cid).2 = { s with
      course_attendance := s.course_attendance.filter (fun r => !(r.course_id == cid)),
      attendance := s.attendance.map (fun a =>
        if a.course_id == some cid then { a with course_id := none } else a),
      courses := s.courses.filter (fun c => !(c.course_id == cid)) } := rfl
  refine ⟨rfl, ?_, ?_, ?_, ?_, ?_, ?_, ?_⟩
  · rw [hs2]
    intro r hr
    simpa using (List.mem_filter.mp hr).2
  · rw [hs2]
    intro r hr hne
    exact List.mem_filter.mpr ⟨hr, by simpa using hne⟩
  · rw [hs2]
    intro c hc
    simpa using (List.mem_filter.mp hc).2
  · rw [hs2]
    intro c hc hne
    exact List.mem_filter.mpr ⟨hc, by simpa using hne⟩
  · rw [hs2]
    exact List.length_map s.attendance _
  · rw [hs2]
    intro a ha heq
    refine List.mem_map.mpr ⟨a, ha, ?_⟩
    rw [if_pos (by simp [heq])]
  · rw [hs2]
    intro a ha hne
    refine List.mem_map.mpr ⟨a, ha, ?_⟩
    rw [if_neg (by simpa using hne)]

/-- Witness for C8: delete a concrete course referenced by one attendance
row; the call succeeds and no attendance row is deleted. -/
theorem delete_course_effects_witness :
    (delete_course
      { Store.empty with
        courses := [⟨"C1", "Math", "", "", 0⟩],
        attendance := [⟨1, "S1", 5, 50, none, "id_pass", some "C1", 50⟩],
        course_attendance := [⟨1, "S1", "C1", 5, 50, none, "id_pass", 50⟩],
        next_attendance_id := 2,
        next_course_attendance_id := 2 } "C1").1 = true ∧
    (delete_course
      { Store.empty with
        courses := [⟨"C1", "Math", "", "", 0⟩],
        attendance := [⟨1, "S1", 5, 50, none, "id_pass", some "C1", 50⟩],
        course_attendance := [⟨1, "S1", "C1", 5, 50, none, "id_pass", 50⟩],
        next_attendance_id := 2,
        next_course_attendance_id := 2 } "C1").2.attendance.length =
      ({ Store.empty with
        courses := [⟨"C1", "Math", "", "", 0⟩],
        attendance := [⟨1, "S1", 5, 50, none, "id_pass", some "C1", 50⟩],
        course_attendance := [⟨1, "S1", "C1", 5, 50, none, "id_pass", 50⟩],
        next_attendance_id := 2,
        next_course_attendance_id := 2 } : Store).attendance.length := by
  have h := delete_course_effects
    { Store.empty with
      courses := [⟨"C1", "Math", "", "", 0⟩],
      attendance := [⟨1, "S1", 5, 50, none, "id_pass", some "C1", 50⟩],
      course_attendance := [⟨1, "S1", "C1", 5, 50, none, "id_pass", 50⟩],
      next_attendance_id := 2,
      next_course_attendance_id := 2 } "C1"
  exact ⟨h.1, h.2.2.2.2.2.1⟩

/-! ### C9 -/

/-- C9: when an attendance row for (student_id, today) exists but no
course_attendance row for (student_id, course_id, today) does, the call
leaves course_attendance entirely unchanged — the UPDATE affects zero rows
and nothing is inserted — while still setting time_out on the matched
attendance row, and returns False (Toggled). -/
theorem record_attendance_toggle_missing_course_row
    (s : Store) (sid vm cid : String) (d t : Nat) (a0 : AttendanceRow)
    (hfind : s.attendance.find? (attMatches sid d) = some a0)
    (hcid : cid ≠ "")
    (hca : ∀ r ∈ s.course_attendance, ¬ caMatches sid cid d r = true) :
    (record_attendance s sid vm (some cid) d t).1 = false ∧
    (record_attendance s sid vm (some cid) d t).2.course_attendance =
      s.course_attendance ∧
    (record_attendance s sid vm (some cid) d t).2.attendance =
      s.attendance.map (fun a =>
        if a.id == a0.id then { a with time_out := some t } else a) ∧
    (∃ a ∈ (record_attendance s sid vm (some cid) d t).2.attendance,
      a.student_id = a0.student_id ∧ a.date = a0.date ∧ a.time_out = some t) := by
  have htr : truthy (some cid) = true := by
    simp [truthy, hcid]
  have hmap : s.course_attendance.map (fun r =>
      if caMatches sid cid d r then { r with time_out := some t } else r) =
      s.course_attendance := by
    apply map_eq_self_of_fixed
    intro r hr
    rw [if_neg]
    simpa using hca r hr
  have hres : record_attendance s sid vm (some cid) d t =
      (false, { s with
        attendance := s.attendance.map (fun a =>
          if a.id == a0.id then { a with time_out := some t } else a),
        course_attendance := s.course_attendance }) := by
    simp only [record_attendance, record_attendance_body, hfind, htr, if_true,
      Option.getD_some]
    rw [hmap]
  refine ⟨by rw [hres], by rw [hres], by rw [hres], ?_⟩
  rw [hres]
  refine ⟨{ a0 with time_out := some t }, ?_, rfl, rfl, rfl⟩
  refine List.mem_map.mpr ⟨a0, List.mem_of_find?_eq_some hfind, ?_⟩
  rw [if_pos (by simp)]

/-- Witness for C9: one student checked in today, the course row deleted in
between, so no course_attendance row for the course exists. -/
theorem record_attendance_toggle_missing_course_row_witness :
    (record_attendance
        { Store.empty with
          attendance := [⟨1, "S1", 5, 50, none, "id_pass", some "C1", 50⟩],
          next_attendance_id := 2 } "S1" "id_pass" (some "C1") 5 60).1 = false ∧
    (record_attendance
        { Store.empty with
          attendance := [⟨1, "S1", 5, 50, none, "id_pass", some "C1", 50⟩],
          next_attendance_id := 2 } "S1" "id_pass" (some "C1") 5 60).2.course_attendance =
      ({ Store.empty with
          attendance := [⟨1, "S1", 5, 50, none, "id_pass", some "C1", 50⟩],
          next_attendance_id := 2 } : Store).course_attendance := by
  have h := record_attendance_toggle_missing_course_row
    { Store.empty with
      attendance := [⟨1, "S1", 5, 50, none, "id_pass", some "C1", 50⟩],
      next_attendance_id := 2 } "S1" "id_pass" "C1" 5 60
    ⟨1, "S1", 5, 50, none, "id_pass", some "C1", 50⟩
    (by decide) (by decide) (by decide)
  exact ⟨h.1, h.2.1⟩

/-! ### C1 -/

/-- C1: starting from a store with no attendance row for (sid, d1) and none
for (sid, d2), d2 ≠ d1: the first call on day d1 returns True (Created) and
appends exactly one new row with time_in set; the second call on day d1
returns False (Toggled), adds no row, and sets time_out on the existing
row; a call on day d2 returns True (Created) again and adds one row. -/
theorem record_attendance_created_then_toggled
    (s : Store) (sid vm1 vm2 vm3 : String) (d1 d2 t1 t2 t3 : Nat)
    (h1 : ∀ a ∈ s.attendance, ¬ attMatches sid d1 a = true)
    (h2 : ∀ a ∈ s.attendance, ¬ attMatches sid d2 a = true)
    (hd : d2 ≠ d1) :
    ∃ s1 s2 s3 : Store,
      record_attendance s sid vm1 none d1 t1 = (true, s1) ∧
      s1.attendance = s.attendance ++
        [⟨s.next_attendance_id, sid, d1, t1, none, vm1, none, t1⟩] ∧
      record_attendance s1 sid vm2 none d1 t2 = (false, s2) ∧
      s2.attendance.length = s1.attendance.length ∧
      (∃ a ∈ s2.attendance,
        a.student_id = sid ∧ a.date = d1 ∧ a.time_in = t1 ∧ a.time_out = some t2) ∧
      record_attendance s2 sid vm3 none d2 t3 = (true, s3) ∧
      s3.attendance.length = s2.attendance.length + 1 := by
  have hf1 : s.attendance.find? (attMatches sid d1) = none :=
    List.find?_eq_none.mpr h1
  have hstep1 := record_attendance_insert_eq s sid vm1 d1 t1 hf1
  have hm1 : attMatches sid d1
      (⟨s.next_attendance_id, sid, d1, t1, none, vm1, none, t1⟩ : AttendanceRow) = true := by
    simp [attMatches]
  have hf2 : (s.attendance ++
      ([⟨s.next_attendance_id, sid, d1, t1, none, vm1, none, t1⟩] : List AttendanceRow)).find?
        (attMatches sid d1) =
      some ⟨s.next_attendance_id, sid, d1, t1, none, vm1, none, t1⟩ := by
    rw [List.find?_append, hf1]
    simp [List.find?_cons, hm1]
  have hm2 : attMatches sid d2
      (⟨s.next_attendance_id, sid, d1, t1, none, vm1, none, t1⟩ : AttendanceRow) = false := by
    simp [attMatches, Ne.symm hd]
  have hf3 : ((s.attendance ++
      ([⟨s.next_attendance_id, sid, d1, t1, none, vm1, none, t1⟩] : List AttendanceRow)).map
        (fun a =>
          if a.id == (⟨s.next_attendance_id, sid, d1, t1, none, vm1, none, t1⟩ : AttendanceRow).id
          then { a with time_out := some t2 } else a)).find?
        (attMatches sid d2) = none := by
    rw [List.find?_eq_none]
    intro x hx
    rcases List.mem_map.mp hx with ⟨a, ha, hfa⟩
    have hsd : x.student_id = a.student_id ∧ x.date = a.date := by
      rw [← hfa]
      by_cases hc : (a.id ==
          (⟨s.next_attendance_id, sid, d1, t1, none, vm1, none, t1⟩ : AttendanceRow).id) = true
      · rw [if_pos hc]
        exact ⟨rfl, rfl⟩
      · rw [if_neg hc]
        exact ⟨rfl, rfl⟩
    have hxa : attMatches sid d2 x = attMatches sid d2 a := by
      simp [attMatches, hsd.1, hsd.2]
    rcases List.mem_append.mp ha with ha | ha
    · rw [hxa]
      exact h2 a ha
    · rcases List.mem_singleton.mp ha with rfl
      rw [hxa, hm2]
      simp
  refine ⟨_, _, _, hstep1, rfl,
    record_attendance_toggle_eq _ sid vm2 d1 t2 _ hf2, List.length_map _ _, ?_,
    record_attendance_insert_eq _ sid vm3 d2 t3 hf3, ?_⟩
  · refine ⟨⟨s.next_attendance_id, sid, d1, t1, some t2, vm1, none, t1⟩, ?_, rfl, rfl, rfl, rfl⟩
    refine List.mem_map.mpr
      ⟨⟨s.next_attendance_id, sid, d1, t1, none, vm1, none, t1⟩,
        List.mem_append_right _ (List.mem_singleton.mpr rfl), ?_⟩
    rw [if_pos (by simp)]
  · simp [List.length_append]

/-- Witness for C1 on a fresh store, days 0 and 1. -/
theorem record_attendance_created_then_toggled_witness :
    ∃ s1 s2 s3 : Store,
      record_attendance Store.empty "S1" "id_pass" none 0 10 = (true, s1) ∧
      s1.attendance = Store.empty.attendance ++
        [⟨Store.empty.next_attendance_id, "S1", 0, 10, none, "id_pass", none, 10⟩] ∧
      record_attendance s1 "S1" "id_pass" none 0 20 = (false, s2) ∧
      s2.attendance.length = s1.attendance.length ∧
      (∃ a ∈ s2.attendance,
        a.student_id = "S1" ∧ a.date = 0 ∧ a.time_in = 10 ∧ a.time_out = some 20) ∧
      record_attendance s2 "S1" "id_pass" none 1 30 = (true, s3) ∧
      s3.attendance.length = s2.attendance.length + 1 :=
  record_attendance_created_then_toggled Store.empty "S1" "id_pass" "id_pass" "id_pass"
    0 1 10 20 30 (by intro a ha; cases ha) (by intro a ha; cases ha) (by decide)

/-! ### C5 -/

/-- C5: `get_student_statistics` returns a record whose total_attendance is
the number of attendance rows of the student, whose recent_attendance is
the number of those rows in the 30-day window (`date >= today - 30`, stated
subtraction-free as `today ≤ date + 30`), and whose method_stats maps every
verification_method occurring among those rows to its count; concretely,
after adding student S001 and two same-day record_attendance("S001",
"id_pass") calls (first Created, second Toggled) the statistics are
total_attendance = 1 and method_stats = {id_pass: 1}. -/
theorem get_student_statistics_correct (s : Store) (sid : String) (today : Nat) :
    (∃ st : Stats, get_student_statistics s sid today = some st ∧
      st.total_attendance = s.attendance.countP (fun a => a.student_id == sid) ∧
      st.recent_attendance = ((s.attendance.filter (fun a => a.student_id == sid)).filter
        (fun a => today ≤ a.date + 30)).length ∧
      ∀ m : String, (∃ a ∈ s.attendance, a.student_id = sid ∧ a.verification_method = m) →
        st.method_stats.lookup m =
          some (((s.attendance.filter (fun a => a.student_id == sid)).filter
            (fun a => a.verification_method == m)).length)) ∧
    (record_attendance (add_student Store.empty "S001" "John" "" "" "" 0).2
        "S001" "id_pass" none 7 100).1 = true ∧
    (record_attendance (record_attendance (add_student Store.empty "S001" "John" "" "" "" 0).2
        "S001" "id_pass" none 7 100).2 "S001" "id_pass" none 7 200).1 = false ∧
    get_student_statistics (record_attendance (record_attendance
        (add_student Store.empty "S001" "John" "" "" "" 0).2
        "S001" "id_pass" none 7 100).2 "S001" "id_pass" none 7 200).2 "S001" 7 =
      some ⟨1, 1, [("id_pass", 1)]⟩ := by
  refine ⟨⟨_, rfl, ?_, rfl, ?_⟩, by decide, by decide, by decide⟩
  · exact (List.countP_eq_length_filter _ _).symm
  · intro m hm
    obtain ⟨a, ha, hsid, hvm⟩ := hm
    have harow : a ∈ s.attendance.filter (fun x => x.student_id == sid) :=
      List.mem_filter.mpr ⟨ha, by simp [hsid]⟩
    have hmem : m ∈ ((s.attendance.filter (fun x => x.student_id == sid)).map
        (fun x => x.verification_method)).dedup :=
      List.mem_dedup.mpr (List.mem_map.mpr ⟨a, harow, hvm⟩)
    exact lookup_map_graph _ _ (List.nodup_dedup _) m hmem

/-- Witness for C5: the lookup characterization applied at a concrete
one-row store. -/
theorem get_student_statistics_correct_witness :
    ∃ st : Stats,
      get_student_statistics
        { Store.empty with
          attendance := [⟨1, "S1", 5, 50, none, "face", none, 50⟩],
          next_attendance_id := 2 } "S1" 7 = some st ∧
      st.total_attendance =
        ({ Store.empty with
          attendance := [⟨1, "S1", 5, 50, none, "face", none, 50⟩],
          next_attendance_id := 2 } : Store).attendance.countP
            (fun a => a.student_id == "S1") ∧
      st.recent_attendance =
        ((({ Store.empty with
          attendance := [⟨1, "S1", 5, 50, none, "face", none, 50⟩],
          next_attendance_id := 2 } : Store).attendance.filter
            (fun a => a.student_id == "S1")).filter
              (fun a => 7 ≤ a.date + 30)).length ∧
      ∀ m : String,
        (∃ a ∈ ({ Store.empty with
            attendance := [⟨1, "S1", 5, 50, none, "face", none, 50⟩],
            next_attendance_id := 2 } : Store).attendance,
          a.student_id = "S1" ∧ a.verification_method = m) →
        st.method_stats.lookup m =
          some (((({ Store.empty with
            attendance := [⟨1, "S1", 5, 50, none, "face", none, 50⟩],
            next_attendance_id := 2 } : Store).attendance.filter
              (fun a => a.student_id == "S1")).filter
                (fun a => a.verification_method == m)).length) :=
  (get_student_statistics_correct
    { Store.empty with
      attendance := [⟨1, "S1", 5, 50, none, "face", none, 50⟩],
      next_attendance_id := 2 } "S1" 7).1

/-! ### C4 -/

/-- C4: the report is a permutation of the filtered join, it is ordered by
time_in descending, a row is in the report exactly when some attendance row
passes the conjunction of the supplied filters and joins a student row
(with the course name from the LEFT JOIN, null when the course_id matches
no course but the row kept), and when no attendance row passes the filters
the result is the empty list. -/
theorem get_attendance_report_correct (s : Store) (sd ed : Option Nat)
    (sid cid : Option String) :
    (get_attendance_report s sd ed sid cid).Perm (reportRows s sd ed sid cid) ∧
    List.Pairwise (fun r1 r2 : ReportRow => r2.time_in ≤ r1.time_in)
      (get_attendance_report s sd ed sid cid) ∧
    (∀ rr : ReportRow, rr ∈ get_attendance_report s sd ed sid cid ↔
      ∃ a ∈ s.attendance, ∃ st ∈ s.students, ∃ cn ∈ courseNames s a,
        st.student_id = a.student_id ∧
        reportFilter sd ed sid cid a = true ∧
        rr = ⟨a.time_in, a.student_id, st.name, a.date, a.verification_method, cn⟩) ∧
    (∀ a : AttendanceRow, (∀ c ∈ s.courses, ¬ a.course_id = some c.course_id) →
      courseNames s a = [none]) ∧
    ((∀ a ∈ s.attendance, reportFilter sd ed sid cid a = false) →
      get_attendance_report s sd ed sid cid = []) := by
  have hdef : get_attendance_report s sd ed sid cid =
      (reportRows s sd ed sid cid).mergeSort reportLe := rfl
  refine ⟨?_, ?_, ?_, ?_, ?_⟩
  · rw [hdef]
    exact List.mergeSort_perm _ _
  · rw [hdef]
    have hs := @List.sorted_mergeSort ReportRow reportLe
      (by intro a b c hab hbc; simp only [reportLe, decide_eq_true_eq] at hab hbc ⊢; omega)
      (by intro a b; simp only [reportLe]; rcases Nat.le_total b.time_in a.time_in with h | h <;> simp [h])
      (reportRows s sd ed sid cid)
    exact hs.imp (fun hab => by simpa [reportLe] using hab)
  · intro rr
    rw [hdef, List.mem_mergeSort]
    constructor
    · intro hrr
      rcases List.mem_flatMap.mp hrr with ⟨a, ha, hin⟩
      by_cases hfil : reportFilter sd ed sid cid a = true
      · rw [if_pos hfil] at hin
        rcases List.mem_flatMap.mp hin with ⟨st, hst, hin2⟩
        by_cases hmatch : (st.student_id == a.student_id) = true
        · rw [if_pos hmatch] at hin2
          rcases List.mem_map.mp hin2 with ⟨cn, hcn, hrr2⟩
          exact ⟨a, ha, st, hst, cn, hcn, beq_iff_eq.mp hmatch, hfil, hrr2.symm⟩
        · rw [if_neg hmatch] at hin2
          cases hin2
      · rw [if_neg hfil] at hin
        cases hin
    · rintro ⟨a, ha, st, hst, cn, hcn, hsid, hfil, rfl⟩
      refine List.mem_flatMap.mpr ⟨a, ha, ?_⟩
      rw [if_pos hfil]
      refine List.mem_flatMap.mpr ⟨st, hst, ?_⟩
      rw [if_pos (by simp [hsid])]
      exact List.mem_map.mpr ⟨cn, hcn, rfl⟩
  · intro a hno
    have hnil : s.courses.filter (fun c => a.course_id == some c.course_id) = [] := by
      rw [List.filter_eq_nil_iff]
      intro c hc
      simpa using hno c hc
    simp [courseNames, hnil]
  · intro hall
    have hnil : reportRows s sd ed sid cid = [] := by
      rw [reportRows, List.flatMap_eq_nil_iff]
      intro a ha
      rw [if_neg (by simp [hall a ha])]
    rw [hdef, hnil, List.mergeSort_nil]

/-- Witness for C4 at a concrete two-row store with the student filter
supplied. -/
theorem get_attendance_report_correct_witness :
    List.Pairwise (fun r1 r2 : ReportRow => r2.time_in ≤ r1.time_in)
      (get_attendance_report
        { Store.empty with
          students := [⟨"S1", "John", "", "", "", 0⟩],
          attendance := [⟨1, "S1", 5, 50, none, "id_pass", none, 50⟩,
            ⟨2, "S1", 6, 60, none, "id_pass", none, 60⟩],
          next_attendance_id := 3 } none none (some "S1") none) :=
  (get_attendance_report_correct
    { Store.empty with
      students := [⟨"S1", "John", "", "", "", 0⟩],
      attendance := [⟨1, "S1", 5, 50, none, "id_pass", none, 50⟩,
        ⟨2, "S1", 6, 60, none, "id_pass", none, 60⟩],
      next_attendance_id := 3 } none none (some "S1") none).2.1

/-! ### C10 -/

/-- C10: an attendance row whose student_id matches no students row (the
recorder inserts such rows without checking existence) never appears in any
get_attendance_report result — the report inner-joins students — while
get_student_statistics still counts it: total_attendance equals the row
count for that id (hence at least 1), recent_attendance counts the 30-day
window, and method_stats gives the row's verification_method a count of at
least 1. -/
theorem orphan_rows_report_vs_statistics (s : Store) (osid : String)
    (horph : ∀ st ∈ s.students, st.student_id ≠ osid)
    (hrow : ∃ a ∈ s.attendance, a.student_id = osid) :
    (∀ sd ed : Option Nat, ∀ sid cid : Option String,
      ∀ rr ∈ get_attendance_report s sd ed sid cid, rr.student_id ≠ osid) ∧
    (∀ today : Nat, ∃ st : Stats, get_student_statistics s osid today = some st ∧
      st.total_attendance = s.attendance.countP (fun a => a.student_id == osid) ∧
      1 ≤ st.total_attendance ∧
      st.recent_attendance = ((s.attendance.filter (fun a => a.student_id == osid)).filter
        (fun a => today ≤ a.date + 30)).length ∧
      ∀ a ∈ s.attendance, a.student_id = osid →
        ∃ k, st.method_stats.lookup a.verification_method = some k ∧ 1 ≤ k) := by
  constructor
  · intro sd ed sid cid rr hrr
    have hdef : get_attendance_report s sd ed sid cid =
        (reportRows s sd ed sid cid).mergeSort reportLe := rfl
    rw [hdef, List.mem_mergeSort] at hrr
    rcases List.mem_flatMap.mp hrr with ⟨a, ha, hin⟩
    by_cases hfil : reportFilter sd ed sid cid a = true
    · rw [if_pos hfil] at hin
      rcases List.mem_flatMap.mp hin with ⟨st, hst, hin2⟩
      by_cases hmatch : (st.student_id == a.student_id) = true
      · rw [if_pos hmatch] at hin2
        rcases List.mem_map.mp hin2 with ⟨cn, hcn, hrr2⟩
        subst hrr2
        intro hcon
        exact horph st hst (by rw [beq_iff_eq.mp hmatch]; exact hcon)
      · rw [if_neg hmatch] at hin2
        cases hin2
    · rw [if_neg hfil] at hin
      cases hin
  · intro today
    obtain ⟨a0, ha0, hsid0⟩ := hrow
    have ha0row : a0 ∈ s.attendance.filter (fun a => a.student_id == osid) :=
      List.mem_filter.mpr ⟨ha0, by simp [hsid0]⟩
    refine ⟨_, rfl, (List.countP_eq_length_filter _ _).symm,
      List.length_pos_of_mem ha0row, rfl, ?_⟩
    intro a ha hsid
    have harow : a ∈ s.attendance.filter (fun x => x.student_id == osid) :=
      List.mem_filter.mpr ⟨ha, by simp [hsid]⟩
    have hmem : a.verification_method ∈
        ((s.attendance.filter (fun x => x.student_id == osid)).map
          (fun x => x.verification_method)).dedup :=
      List.mem_dedup.mpr (List.mem_map.mpr ⟨a, harow, rfl⟩)
    refine ⟨_, lookup_map_graph _ _ (List.nodup_dedup _) _ hmem, ?_⟩
    exact List.length_pos_of_mem (List.mem_filter.mpr ⟨harow, by simp⟩)

/-- Witness for C10: the orphan row inserted by record_attendance on a
store with no students. -/
theorem orphan_rows_report_vs_statistics_witness :
    (∀ sd ed : Option Nat, ∀ sid cid : Option String,
      ∀ rr ∈ get_attendance_report
        (record_attendance Store.empty "GHOST" "id_pass" none 3 30).2 sd ed sid cid,
        rr.student_id ≠ "GHOST") ∧
    (∀ today : Nat, ∃ st : Stats,
      get_student_statistics
        (record_attendance Store.empty "GHOST" "id_pass" none 3 30).2 "GHOST" today =
        some st ∧
      st.total_attendance =
        (record_attendance Store.empty "GHOST" "id_pass" none 3 30).2.attendance.countP
          (fun a => a.student_id == "GHOST") ∧
      1 ≤ st.total_attendance ∧
      st.recent_attendance =
        (((record_attendance Store.empty "GHOST" "id_pass" none 3 30).2.attendance.filter
          (fun a => a.student_id == "GHOST")).filter
            (fun a => today ≤ a.date + 30)).length ∧
      ∀ a ∈ (record_attendance Store.empty "GHOST" "id_pass" none 3 30).2.attendance,
        a.student_id = "GHOST" →
        ∃ k, st.method_stats.lookup a.verification_method = some k ∧ 1 ≤ k) :=
  orphan_rows_report_vs_statistics
    (record_attendance Store.empty "GHOST" "id_pass" none 3 30).2 "GHOST"
    (by intro st hst; cases hst)
    ⟨⟨1, "GHOST", 3, 30, none, "id_pass", none, 30⟩, by decide, rfl⟩

/-! ### C3 -/

/-- C3: no public operation lets a fault escape to the caller: for every
input and state, either the try-block body of the operation produces a
value, which the operation returns unchanged, or the body raises, and the
operation converts the fault at its boundary into its non-throwing default
result — boolean False, None, the empty list or the empty dict — with the
store (or file system) left as it was. -/
theorem operations_never_raise :
    (∀ (s : Store) (a b c d e : String) (t : Nat),
      (∃ v, add_student_body s a b c d e t = Except.ok v ∧ add_student s a b c d e t = v) ∨
      (∃ er, add_student_body s a b c d e t = Except.error er ∧
        add_student s a b c d e t = (false, s))) ∧
    (∀ (s : Store) (sid : String),
      (∃ v, get_student_body s sid = Except.ok v ∧ get_student s sid = v) ∨
      (∃ er, get_student_body s sid = Except.error er ∧ get_student s sid = none)) ∧
    (∀ s : Store,
      (∃ v, get_all_students_body s = Except.ok v ∧ get_all_students s = v) ∨
      (∃ er, get_all_students_body s = Except.error er ∧ get_all_students s = [])) ∧
    (∀ (s : Store) (a b c d : String) (t : Nat),
      (∃ v, add_course_body s a b c d t = Except.ok v ∧ add_course s a b c d t = v) ∨
      (∃ er, add_course_body s a b c d t = Except.error er ∧
        add_course s a b c d t = (false, s))) ∧
    (∀ s : Store,
      (∃ v, get_all_courses_body s = Except.ok v ∧ get_all_courses s = v) ∨
      (∃ er, get_all_courses_body s = Except.error er ∧ get_all_courses s = [])) ∧
    (∀ (s : Store) (sid : String),
      (∃ v, delete_student_body s sid = Except.ok v ∧ delete_student s sid = v) ∨
      (∃ er, delete_student_body s sid = Except.error er ∧
        delete_student s sid = (false, s))) ∧
    (∀ (s : Store) (cid : String),
      (∃ v, delete_course_body s cid = Except.ok v ∧ delete_course s cid = v) ∨
      (∃ er, delete_course_body s cid = Except.error er ∧
        delete_course s cid = (false, s))) ∧
    (∀ (s : Store) (sid vm : String) (cid : Option String) (d t : Nat),
      (∃ v, record_attendance_body s sid vm cid d t = Except.ok v ∧
        record_attendance s sid vm cid d t = v) ∨
      (∃ er, record_attendance_body s sid vm cid d t = Except.error er ∧
        record_attendance s sid vm cid d t = (false, s))) ∧
    (∀ (s : Store) (sd ed : Option Nat) (sid cid : Option String),
      (∃ v, get_attendance_report_body s sd ed sid cid = Except.ok v ∧
        get_attendance_report s sd ed sid cid = v) ∨
      (∃ er, get_attendance_report_body s sd ed sid cid = Except.error er ∧
        get_attendance_report s sd ed sid cid = [])) ∧
    (∀ (s : Store) (sid : String) (today : Nat),
      (∃ v, get_student_statistics_body s sid today = Except.ok v ∧
        get_student_statistics s sid today = some v) ∨
      (∃ er, get_student_statistics_body s sid today = Except.error er ∧
        get_student_statistics s sid today = none)) ∧
    (∀ (fs : FS) (dbp bp : String),
      (∃ v, backup_database_body fs dbp bp = Except.ok v ∧ backup_database fs dbp bp = v) ∨
      (∃ er, backup_database_body fs dbp bp = Except.error er ∧
        backup_database fs dbp bp = (false, fs))) ∧
    (∀ (fs : FS) (dbp bp : String),
      (∃ v, restore_database_body fs dbp bp = Except.ok v ∧
        restore_database fs dbp bp = v) ∨
      (∃ er, restore_database_body fs dbp bp = Except.error er ∧
        restore_database fs dbp bp = (false, fs))) := by
  refine ⟨?_, ?_, ?_, ?_, ?_, ?_, ?_, ?_, ?_, ?_, ?_, ?_⟩
  · intro s a b c d e t
    cases hb : add_student_body s a b c d e t with
    | ok v => exact Or.inl ⟨v, rfl, by simp only [add_student, hb]⟩
    | error er => exact Or.inr ⟨er, rfl, by simp only [add_student, hb]⟩
  · intro s sid
    cases hb : get_student_body s sid with
    | ok v => exact Or.inl ⟨v, rfl, by simp only [get_student, hb]⟩
    | error er => exact Or.inr ⟨er, rfl, by simp only [get_student, hb]⟩
  · intro s
    cases hb : get_all_students_body s with
    | ok v => exact Or.inl ⟨v, rfl, by simp only [get_all_students, hb]⟩
    | error er => exact Or.inr ⟨er, rfl, by simp only [get_all_students, hb]⟩
  · intro s a b c d t
    cases hb : add_course_body s a b c d t with
    | ok v => exact Or.inl ⟨v, rfl, by simp only [add_course, hb]⟩
    | error er => exact Or.inr ⟨er, rfl, by simp only [add_course, hb]⟩
  · intro s
    cases hb : get_all_courses_body s with
    | ok v => exact Or.inl ⟨v, rfl, by simp only [get_all_courses, hb]⟩
    | error er => exact Or.inr ⟨er, rfl, by simp only [get_all_courses, hb]⟩
  · intro s sid
    cases hb : delete_student_body s sid with
    | ok v => exact Or.inl ⟨v, rfl, by simp only [delete_student, hb]⟩
    | error er => exact Or.inr ⟨er, rfl, by simp only [delete_student, hb]⟩
  · intro s cid
    cases hb : delete_course_body s cid with
    | ok v => exact Or.inl ⟨v, rfl, by simp only [delete_course, hb]⟩
    | error er => exact Or.inr ⟨er, rfl, by simp only [delete_course, hb]⟩
  · intro s sid vm cid d t
    cases hb : record_attendance_body s sid vm cid d t with
    | ok v => exact Or.inl ⟨v, rfl, by simp only [record_attendance, hb]⟩
    | error er => exact Or.inr ⟨er, rfl, by simp only [record_attendance, hb]⟩
  · intro s sd ed sid cid
    cases hb : get_attendance_report_body s sd ed sid cid with
    | ok v => exact Or.inl ⟨v, rfl, by simp only [get_attendance_report, hb]⟩
    | error er => exact Or.inr ⟨er, rfl, by simp only [get_attendance_report, hb]⟩
  · intro s sid today
    cases hb : get_student_statistics_body s sid today with
    | ok v => exact Or.inl ⟨v, rfl, by simp only [get_student_statistics, hb]⟩
    | error er => exact Or.inr ⟨er, rfl, by simp only [get_student_statistics, hb]⟩
  · intro fs dbp bp
    cases hb : backup_database_body fs dbp bp with
    | ok v => exact Or.inl ⟨v, rfl, by simp only [backup_database, hb]⟩
    | error er => exact Or.inr ⟨er, rfl, by simp only [backup_database, hb]⟩
  · intro fs dbp bp
    cases hb : restore_database_body fs dbp bp with
    | ok v => exact Or.inl ⟨v, rfl, by simp only [restore_database, hb]⟩
    | error er => exact Or.inr ⟨er, rfl, by simp only [restore_database, hb]⟩

/-! ### C2 -/

/-- Fields of an attendance row after the toggle-branch UPDATE: everything
but time_out is preserved. -/
theorem toggle_map_fields (a0 : AttendanceRow) (t : Nat) (a : AttendanceRow) :
    ((if a.id == a0.id then { a with time_out := some t } else a) : AttendanceRow).id = a.id ∧
    ((if a.id == a0.id then { a with time_out := some t } else a) : AttendanceRow).student_id = a.student_id ∧
    ((if a.id == a0.id then { a with time_out := some t } else a) : AttendanceRow).date = a.date ∧
    ((if a.id == a0.id then { a with time_out := some t } else a) : AttendanceRow).time_in = a.time_in ∧
    ((if a.id == a0.id then { a with time_out := some t } else a) : AttendanceRow).verification_method = a.verification_method ∧
    ((if a.id == a0.id then { a with time_out := some t } else a) : AttendanceRow).course_id = a.course_id := by
  by_cases h : (a.id == a0.id) = true
  · rw [if_pos h]
    exact ⟨rfl, rfl, rfl, rfl, rfl, rfl⟩
  · rw [if_neg h]
    exact ⟨rfl, rfl, rfl, rfl, rfl, rfl⟩

/-- Fields of an attendance row after the course-nulling UPDATE of
delete_course: everything but course_id is preserved, and course_id is
either untouched or set to null. -/
theorem nullify_map_fields (cid : String) (a : AttendanceRow) :
    ((if a.course_id == some cid then { a with course_id := none } else a) : AttendanceRow).id = a.id ∧
    ((if a.course_id == some cid then { a with course_id := none } else a) : AttendanceRow).student_id = a.student_id ∧
    ((if a.course_id == some cid then { a with course_id := none } else a) : AttendanceRow).date = a.date ∧
    ((if a.course_id == some cid then { a with course_id := none } else a) : AttendanceRow).time_in = a.time_in ∧
    ((if a.course_id == some cid then { a with course_id := none } else a) : AttendanceRow).verification_method = a.verification_method ∧
    (((if a.course_id == some cid then { a with course_id := none } else a) : AttendanceRow).course_id = a.course_id ∨
      ((if a.course_id == some cid then { a with course_id := none } else a) : AttendanceRow).course_id = none) := by
  by_cases h : (a.course_id == some cid) = true
  · rw [if_pos h]
    exact ⟨rfl, rfl, rfl, rfl, rfl, Or.inr rfl⟩
  · rw [if_neg h]
    exact ⟨rfl, rfl, rfl, rfl, rfl, Or.inl rfl⟩

/-- add_student never touches the attendance table or its counter. -/
theorem add_student_frame (s : Store) (a b c d e : String) (t : Nat) :
    (add_student s a b c d e t).2.attendance = s.attendance ∧
    (add_student s a b c d e t).2.next_attendance_id = s.next_attendance_id := by
  by_cases hc : (s.students.any (fun st => st.student_id == a)) = true <;>
    simp [add_student, add_student_body, hc]

/-- add_course never touches the attendance table or its counter. -/
theorem add_course_frame (s : Store) (a b c d : String) (t : Nat) :
    (add_course s a b c d t).2.attendance = s.attendance ∧
    (add_course s a b c d t).2.next_attendance_id = s.next_attendance_id := by
  by_cases hc : (s.courses.any (fun x => x.course_id == a)) = true <;>
    simp [add_course, add_course_body, hc]

/-- The three possible effects of record_attendance on the attendance
table: fault (store unchanged), toggle (UPDATE time_out of the found row),
or insert (one appended row). -/
theorem record_attendance_cases (s : Store) (sid vm : String) (cid : Option String)
    (d t : Nat) :
    (record_attendance s sid vm cid d t).2 = s ∨
    (∃ a0, s.attendance.find? (attMatches sid d) = some a0 ∧
      (record_attendance s sid vm cid d t).2.attendance =
        s.attendance.map (fun a =>
          if a.id == a0.id then { a with time_out := some t } else a) ∧
      (record_attendance s sid vm cid d t).2.next_attendance_id = s.next_attendance_id) ∨
    (s.attendance.find? (attMatches sid d) = none ∧
      (record_attendance s sid vm cid d t).2.attendance =
        s.attendance ++ [⟨s.next_attendance_id, sid, d, t, none, vm, cid, t⟩] ∧
      (record_attendance s sid vm cid d t).2.next_attendance_id = s.next_attendance_id + 1) := by
  cases hf : s.attendance.find? (attMatches sid d) with
  | some a0 =>
      refine Or.inr (Or.inl ⟨a0, rfl, ?_, ?_⟩)
      · simp [record_attendance, record_attendance_body, hf]
      · simp [record_attendance, record_attendance_body, hf]
  | none =>
      by_cases htr : truthy cid = true
      · by_cases hdup : (s.course_attendance.any (caMatches sid (cid.getD "") d)) = true
        · refine Or.inl ?_
          simp [record_attendance, record_attendance_body, hf, htr, hdup]
        · refine Or.inr (Or.inr ⟨rfl, ?_, ?_⟩)
          · simp [record_attendance, record_attendance_body, hf, htr, hdup]
          · simp [record_attendance, record_attendance_body, hf, htr, hdup]
      · refine Or.inr (Or.inr ⟨rfl, ?_, ?_⟩)
        · simp [record_attendance, record_attendance_body, hf, htr]
        · simp [record_attendance, record_attendance_body, hf, htr]

/-- Internal store invariant on the attendance table: ids are below the
autoincrement counter, pairwise distinct, and (student_id, date) is
unique. -/
def AttInv (s : Store) : Prop :=
  (∀ a ∈ s.attendance, a.id < s.next_attendance_id) ∧
  s.attendance.Pairwise (fun a b => a.id ≠ b.id) ∧
  s.attendance.Pairwise (fun a b => ¬(a.student_id = b.student_id ∧ a.date = b.date))

/-- Every mutating operation preserves the attendance invariant. -/
theorem attInv_step {s s2 : Store} (hinv : AttInv s) (hstep : Step s s2) : AttInv s2 := by
  obtain ⟨hbound, hids, hkey⟩ := hinv
  cases hstep with
  | addStudent sid n e p dep t =>
      obtain ⟨h1, h2⟩ := add_student_frame s sid n e p dep t
      refine ⟨?_, ?_, ?_⟩
      · rw [h1, h2]
        exact hbound
      · rw [h1]
        exact hids
      · rw [h1]
        exact hkey
  | addCourse cid n i sch t =>
      obtain ⟨h1, h2⟩ := add_course_frame s cid n i sch t
      refine ⟨?_, ?_, ?_⟩
      · rw [h1, h2]
        exact hbound
      · rw [h1]
        exact hids
      · rw [h1]
        exact hkey
  | recordAttendance sid vm cid today now =>
      rcases record_attendance_cases s sid vm cid today now with
        hcase | ⟨a0, _, hatt, hnext⟩ | ⟨hf, hatt, hnext⟩
      · rw [hcase]
        exact ⟨hbound, hids, hkey⟩
      · refine ⟨?_, ?_, ?_⟩
        · rw [hatt, hnext]
          intro x hx
          rcases List.mem_map.mp hx with ⟨a, ha, rfl⟩
          rw [(toggle_map_fields a0 now a).1]
          exact hbound a ha
        · rw [hatt]
          refine List.Pairwise.map _ ?_ hids
          intro a b hab
          rw [(toggle_map_fields a0 now a).1, (toggle_map_fields a0 now b).1]
          exact hab
        · rw [hatt]
          refine List.Pairwise.map _ ?_ hkey
          intro a b hab
          obtain ⟨_, hsa, hda, _, _, _⟩ := toggle_map_fields a0 now a
          obtain ⟨_, hsb, hdb, _, _, _⟩ := toggle_map_fields a0 now b
          rw [hsa, hda, hsb, hdb]
          exact hab
      · have hnotin := List.find?_eq_none.mp hf
        refine ⟨?_, ?_, ?_⟩
        · rw [hatt, hnext]
          intro x hx
          rcases List.mem_append.mp hx with hx | hx
          · exact Nat.lt_succ_of_lt (hbound x hx)
          · rcases List.mem_singleton.mp hx with rfl
            exact Nat.lt_succ_self _
        · rw [hatt, List.pairwise_append]
          refine ⟨hids, by simp, ?_⟩
          intro a ha b hb
          rcases List.mem_singleton.mp hb with rfl
          exact Nat.ne_of_lt (hbound a ha)
        · rw [hatt, List.pairwise_append]
          refine ⟨hkey, by simp, ?_⟩
          intro a ha b hb
          rcases List.mem_singleton.mp hb with rfl
          rintro ⟨hs1, hd1⟩
          apply hnotin a ha
          simp [attMatches]
          constructor
          · exact hs1
          · exact hd1
  | deleteStudent sid =>
      refine ⟨?_, ?_, ?_⟩
      · intro x hx
        exact hbound x (List.mem_of_mem_filter hx)
      · exact List.Pairwise.filter _ hids
      · exact List.Pairwise.filter _ hkey
  | deleteCourse cid =>
      refine ⟨?_, ?_, ?_⟩
      · intro x hx
        rcases List.mem_map.mp hx with ⟨a, ha, rfl⟩
        rw [(nullify_map_fields cid a).1]
        exact hbound a ha
      · refine List.Pairwise.map _ ?_ hids
        intro a b hab
        rw [(nullify_map_fields cid a).1, (nullify_map_fields cid b).1]
        exact hab
      · refine List.Pairwise.map _ ?_ hkey
        intro a b hab
        obtain ⟨_, hsa, hda, _, _, _⟩ := nullify_map_fields cid a
        obtain ⟨_, hsb, hdb, _, _, _⟩ := nullify_map_fields cid b
        rw [hsa, hda, hsb, hdb]
        exact hab

/-- Every reachable store satisfies the attendance invariant. -/
theorem attInv_reachable {s : Store} (h : Reachable s) : AttInv s := by
  induction h with
  | init =>
      refine ⟨?_, List.Pairwise.nil, List.Pairwise.nil⟩
      intro a ha
      cases ha
  | step _ hstep ih => exact attInv_step ih hstep

/-- Across one mutating operation, a surviving attendance row (matched by
id) keeps student_id, date, time_in and verification_method, and its
course_id is either unchanged or nulled. -/
theorem step_preserves_rows {s s2 : Store} (hinv : AttInv s) (hstep : Step s s2) :
    ∀ r ∈ s.attendance, ∀ r2 ∈ s2.attendance, r.id = r2.id →
      r2.student_id = r.student_id ∧ r2.date = r.date ∧ r2.time_in = r.time_in ∧
      r2.verification_method = r.verification_method ∧
      (r2.course_id = r.course_id ∨ r2.course_id = none) := by
  obtain ⟨hbound, hids, hkey⟩ := hinv
  have hsame : ∀ r ∈ s.attendance, ∀ r2 ∈ s.attendance, r.id = r2.id →
      r2.student_id = r.student_id ∧ r2.date = r.date ∧ r2.time_in = r.time_in ∧
      r2.verification_method = r.verification_method ∧
      (r2.course_id = r.course_id ∨ r2.course_id = none) := by
    intro r hr r2 hr2 hid
    have heq := att_eq_of_same_id hids r hr r2 hr2 hid
    rw [← heq]
    exact ⟨rfl, rfl, rfl, rfl, Or.inl rfl⟩
  cases hstep with
  | addStudent sid n e p dep t =>
      obtain ⟨h1, _⟩ := add_student_frame s sid n e p dep t
      rw [h1]
      exact hsame
  | addCourse cid n i sch t =>
      obtain ⟨h1, _⟩ := add_course_frame s cid n i sch t
      rw [h1]
      exact hsame
  | recordAttendance sid vm cid today now =>
      rcases record_attendance_cases s sid vm cid today now with
        hcase | ⟨a0, _, hatt, _⟩ | ⟨hf, hatt, _⟩
      · rw [hcase]
        exact hsame
      · rw [hatt]
        intro r hr r2 hr2 hid
        rcases List.mem_map.mp hr2 with ⟨a, ha, rfl⟩
        obtain ⟨hidf, hsf, hdf, htf, hvf, hcf⟩ := toggle_map_fields a0 now a
        have hra : r = a := att_eq_of_same_id hids r hr a ha (hid.trans hidf)
        subst hra
        exact ⟨hsf, hdf, htf, hvf, Or.inl hcf⟩
      · rw [hatt]
        intro r hr r2 hr2 hid
        rcases List.mem_append.mp hr2 with hr2 | hr2
        · exact hsame r hr r2 hr2 hid
        · rcases List.mem_singleton.mp hr2 with rfl
          exact absurd hid (Nat.ne_of_lt (hbound r hr))
  | deleteStudent sid =>
      intro r hr r2 hr2 hid
      exact hsame r hr r2 (List.mem_of_mem_filter hr2) hid
  | deleteCourse cid =>
      intro r hr r2 hr2 hid
      rcases List.mem_map.mp hr2 with ⟨a, ha, rfl⟩
      obtain ⟨hidf, hsf, hdf, htf, hvf, hcf⟩ := nullify_map_fields cid a
      have hra : r = a := att_eq_of_same_id hids r hr a ha (hid.trans hidf)
      subst hra
      exact ⟨hsf, hdf, htf, hvf, hcf⟩

/-- The mutability discipline C2 asserts for a transition: every attendance
row surviving an operation (matched by id) keeps student_id, date, time_in,
verification_method and course_id, i.e. time_out is the only field an
operation may change on an existing row. -/
def OnlyTimeOutMutated (s s2 : Store) : Prop :=
  ∀ r ∈ s.attendance, ∀ r2 ∈ s2.attendance, r.id = r2.id →
    r2.student_id = r.student_id ∧ r2.date = r.date ∧ r2.time_in = r.time_in ∧
    r2.verification_method = r.verification_method ∧ r2.course_id = r.course_id

instance (s s2 : Store) : Decidable (OnlyTimeOutMutated s s2) := by
  unfold OnlyTimeOutMutated
  infer_instance

/-- C2 counterexample: starting from the reachable store obtained by
add_course("C1") followed by record_attendance("S1", "id_pass", "C1") on
day 5, the store operation delete_course("C1") mutates the existing
attendance row's course_id (from C1 to null), so time_out is not the only
field of an existing attendance row that an operation mutates. -/
theorem delete_course_mutates_course_id :
    ¬ OnlyTimeOutMutated
      (record_attendance (add_course Store.empty "C1" "Math" "" "" 0).2
        "S1" "id_pass" (some "C1") 5 50).2
      (delete_course (record_attendance (add_course Store.empty "C1" "Math" "" "" 0).2
        "S1" "id_pass" (some "C1") 5 50).2 "C1").2 := by
  decide

/-- C2 (amended): every reachable store has at most one attendance row per
(student_id, date); across every mutating store operation an existing
attendance row keeps its student_id, date, time_in — time_in is immutable
once set — and verification_method, and the only fields an operation
mutates on an existing row are time_out (record_attendance's toggle) and
course_id, which delete_course sets to null. -/
theorem attendance_invariant (s : Store) (h : Reachable s) :
    s.attendance.Pairwise (fun a b => ¬(a.student_id = b.student_id ∧ a.date = b.date)) ∧
    ∀ s2 : Store, Step s s2 → ∀ r ∈ s.attendance, ∀ r2 ∈ s2.attendance, r.id = r2.id →
      r2.student_id = r.student_id ∧ r2.date = r.date ∧ r2.time_in = r.time_in ∧
      r2.verification_method = r.verification_method ∧
      (r2.course_id = r.course_id ∨ r2.course_id = none) :=
  ⟨(attInv_reachable h).2.2,
    fun _ hstep => step_preserves_rows (attInv_reachable h) hstep⟩

/-- Witness for C2 (amended) at the reachable store built by add_course
then record_attendance. -/
theorem attendance_invariant_witness :
    (record_attendance (add_course Store.empty "C1" "Math" "" "" 0).2
      "S1" "id_pass" (some "C1") 5 50).2.attendance.Pairwise
      (fun a b => ¬(a.student_id = b.student_id ∧ a.date = b.date)) :=
  (attendance_invariant _
    (Reachable.step
      (Reachable.step Reachable.init (Step.addCourse Store.empty "C1" "Math" "" "" 0))
      (Step.recordAttendance (add_course Store.empty "C1" "Math" "" "" 0).2
        "S1" "id_pass" (some "C1") 5 50))).1

end SmartAttendance
